import Mathlib

/-!
Verification of the pagination component in `src/components/PaginationUI.jsx`.

The file embeds the component's logic shallowly:
* `reducer` over `LoadState` and `Action` mirrors the `useReducer` reducer;
* `fetchData` mirrors the `useFetch` hook's `fetchData`, with the outcome of
  the transport call made an explicit input;
* `totalPages`, `currentPageItems`, the `disabled` predicates of the
  Previous/Next buttons, the list of numbered page controls, and the click
  handlers mirror the body of the `PaginationUI` component.
-/

namespace PaginationUI

/-- A rendered list item: the code reads `item.id` (render key) and
`item.body` (display text). -/
structure Item where
  id : Nat
  body : String
deriving DecidableEq, Repr

/-- The reducer-owned state: `{ data: [], isLoading: false, error: null }`.
`error` is `none` for JavaScript `null`. -/
structure LoadState where
  data : List Item
  isLoading : Bool
  error : Option String
deriving DecidableEq, Repr

/-- `initialState` from the source. -/
def initialState : LoadState :=
  { data := [], isLoading := false, error := none }

/-- Dispatched actions. `action.type` is a string in JavaScript; the three
recognized tags are `LOADING`, `OK` and `ERROR`, and any other tag falls to
the reducer's `default` branch, modelled by `unrecognized` carrying the tag. -/
inductive Action where
  | LOADING : Action
  | OK (data : List Item) : Action
  | ERROR (error : String) : Action
  | unrecognized (tag : String) : Action
deriving DecidableEq, Repr

/-- True exactly on `OK` actions. -/
def Action.isOK : Action → Bool
  | .OK _ => true
  | _ => false

/-- The reducer from the source:
`LOADING → { ...state, isLoading: true, error: null }`,
`OK → { ...state, isLoading: false, data: action.data, error: null }`,
`ERROR → { ...state, isLoading: false, error: action.error }`,
`default → state`. -/
def reducer (state : LoadState) (action : Action) : LoadState :=
  match action with
  | .LOADING => { state with isLoading := true, error := none }
  | .OK data => { state with isLoading := false, data := data, error := none }
  | .ERROR error => { state with isLoading := false, error := some error }
  | .unrecognized _ => state

/-- Run a sequence of dispatched actions through the reducer. -/
def runActions (s : LoadState) (as : List Action) : LoadState :=
  as.foldl reducer s

/-- JavaScript truthiness of the `error` field: `null` and the empty string
are falsy, every other string is truthy. -/
def errTruthy : Option String → Bool
  | none => false
  | some s => s != ""

/-- `itemsPerPage = 10` from the source. -/
def itemsPerPage : Nat := 10

/-- `totalPages = Math.ceil(state.data.length / itemsPerPage)`: for a natural
count `n`, `Math.ceil(n / 10)` is `(n + 9) / 10` in integer arithmetic. -/
def totalPages (n : Nat) : Nat :=
  (n + itemsPerPage - 1) / itemsPerPage

/-- `Array.prototype.slice(start, end)` on a list: the elements at positions
`start` to `end - 1`. -/
def jsSlice (l : List Item) (start stop : Nat) : List Item :=
  (l.take stop).drop start

/-- `currentPageItems = state.data.slice((pagination - 1) * itemsPerPage,
pagination * itemsPerPage)`. -/
def currentPageItems (data : List Item) (pagination : Nat) : List Item :=
  jsSlice data ((pagination - 1) * itemsPerPage) (pagination * itemsPerPage)

/-- The Previous button's attribute `disabled={pagination === 1}`. -/
def prevDisabled (pagination : Nat) : Bool :=
  pagination == 1

/-- The Next button's attribute `disabled={pagination === totalPages}`. -/
def nextDisabled (pagination tp : Nat) : Bool :=
  pagination == tp

/-- The labels of the numbered page buttons rendered by
`Array.from({ length: totalPages }, (_, index) => ...)`: button `index + 1`
for each `index < totalPages`. -/
def numberedControls (tp : Nat) : List Nat :=
  (List.range tp).map (fun index => index + 1)

/-- The fixed message thrown when `!response.ok`. -/
def fetchFailMessage : String :=
  "Could not fetch data from server. Please try again later."

/-- The outcome of the transport call made by `fetchData`, the only
non-deterministic input of the hook:
* `throws msg` — `fetch` itself rejects (network failure) with an error whose
  `message` is `msg`;
* `responds ok body` — `fetch` resolves with a response whose `ok` flag is
  `ok`, and whose `json()` parse either rejects with a message
  (`Except.error msg`: malformed JSON body) or yields the item collection
  (`Except.ok items`). -/
inductive FetchOutcome where
  | throws (msg : String) : FetchOutcome
  | responds (ok : Bool) (body : Except String (List Item)) : FetchOutcome
deriving Repr

/-- The value-level result `{ error, data }` returned by `fetchData`. -/
structure FetchResult where
  error : Option String
  data : List Item
deriving DecidableEq, Repr

/-- `fetchData` from `useFetch`: awaits the transport call inside
`try`/`catch`; on `!response.ok` it throws the fixed `Error` (caught by the
same `catch`); the `catch` branch returns `{ error: err.message, data: [] }`;
the success path returns `{ error: null, data: resData }`. -/
def fetchData (outcome : FetchOutcome) : FetchResult :=
  match outcome with
  | .throws msg => { error := some msg, data := [] }
  | .responds ok body =>
    if ok then
      match body with
      | .error msg => { error := some msg, data := [] }
      | .ok resData => { error := none, data := resData }
    else
      { error := some fetchFailMessage, data := [] }

/-- The view-local state touched by the page-navigation handlers: the loaded
item list (`state.data`) and the `pagination` index from `useState(1)`. -/
structure NavState where
  data : List Item
  pagination : Nat
deriving DecidableEq, Repr

/-- `handlePrevious = () => pagination > 1 && setPagination(pagination - 1)`. -/
def handlePrevious (s : NavState) : NavState :=
  if s.pagination > 1 then { s with pagination := s.pagination - 1 } else s

/-- `handleNext = () => pagination < totalPages && setPagination(pagination + 1)`. -/
def handleNext (s : NavState) : NavState :=
  if s.pagination < totalPages s.data.length then
    { s with pagination := s.pagination + 1 }
  else s

/-- `handlePageClick = (num) => setPagination(num)`. -/
def handlePageClick (num : Nat) (s : NavState) : NavState :=
  { s with pagination := num }

/-- Apply the `OK` load transition to the navigation-relevant state: the
dispatch replaces `state.data` and leaves `pagination` untouched. -/
def loadOK (items : List Item) (s : NavState) : NavState :=
  { s with data := items }

/-- Navigation states reachable from the mount state `data = []`,
`pagination = 1`. The Boolean records whether the single `OK` data-load
dispatch has happened, so `load` fires at most once; `click` is only
available on a rendered numbered control, i.e. a label of
`numberedControls`. -/
inductive NavReachable : Bool → NavState → Prop where
  | init : NavReachable false { data := [], pagination := 1 }
  | prev {b : Bool} {s : NavState} :
      NavReachable b s → NavReachable b (handlePrevious s)
  | next {b : Bool} {s : NavState} :
      NavReachable b s → NavReachable b (handleNext s)
  | click {b : Bool} {s : NavState} {n : Nat} :
      NavReachable b s → n ∈ numberedControls (totalPages s.data.length) →
      NavReachable b (handlePageClick n s)
  | load {s : NavState} (items : List Item) :
      NavReachable false s → NavReachable true (loadOK items s)

/-- The render guard `{state.isLoading && <p>Loading...</p>}`. -/
def showLoading (s : LoadState) : Bool := s.isLoading

/-- The render guard `{state.error && <p>{state.error}</p>}`. -/
def showError (s : LoadState) : Bool := errTruthy s.error

/-- The render guard `{!state.isLoading && !state.error && (...)}` around the
list and the pagination controls. -/
def showData (s : LoadState) : Bool := !s.isLoading && !errTruthy s.error

/-- C8: for every state and every action whose type is none of `LOADING`,
`OK`, `ERROR`, the reducer's `default` branch returns the input state
unchanged (value equality). -/
theorem c8_reducer_unrecognized_identity (s : LoadState) (tag : String) :
    reducer s (.unrecognized tag) = s := rfl

/-- C5: `fetchData` is a total function into value-level results: a response
with non-success status yields the error result with exactly the fixed
message (whatever the body was); a throwing transport call or a failing JSON
parse yields the error result carrying that failure's own message; otherwise
it yields the success result whose data is the parsed body. -/
theorem c5_fetchData_result_cases :
    (∀ body, fetchData (.responds false body) =
      { error := some fetchFailMessage, data := [] }) ∧
    (∀ msg, fetchData (.throws msg) = { error := some msg, data := [] }) ∧
    (∀ msg, fetchData (.responds true (.error msg)) =
      { error := some msg, data := [] }) ∧
    (∀ resData, fetchData (.responds true (.ok resData)) =
      { error := none, data := resData }) :=
  ⟨fun _ => rfl, fun _ => rfl, fun _ => rfl, fun _ => rfl⟩

/-- C10: every error result produced by `fetchData` carries the empty list in
its `data` field. -/
theorem c10_fetchData_error_data_empty (o : FetchOutcome)
    (h : (fetchData o).error ≠ none) : (fetchData o).data = [] := by
  cases o with
  | throws msg => rfl
  | responds ok body =>
    cases ok with
    | false => rfl
    | true =>
      cases body with
      | error msg => rfl
      | ok resData => simp [fetchData] at h

/-- Witness for C10 at the concrete outcome of a network rejection. -/
theorem c10_fetchData_error_data_empty_witness :
    (fetchData (.throws "Failed to fetch")).error ≠ none ∧
    (fetchData (.throws "Failed to fetch")).data = [] :=
  ⟨by decide, c10_fetchData_error_data_empty _ (by decide)⟩

/-- C1 counterexample: with an empty item set (`totalPages 0 = 0`) and the
current page index `1`, the claim's predicate `p = totalPages ∨ totalPages = 0`
is true, yet the Next button's `disabled` attribute `pagination === totalPages`
evaluates to `false`. -/
theorem c1_next_disabled_counterexample :
    ¬ ((nextDisabled 1 (totalPages 0) = true) ↔
      (1 = totalPages 0 ∨ totalPages 0 = 0)) := by
  decide

/-- C1 (amended): Previous's `disabled` is true iff `p = 1`, Next's
`disabled` is true iff `p = totalPages` (with no extra `totalPages = 0`
disjunct), and when `totalPages = 0` no numbered controls render and Previous
(at the only reachable index `p = 1`) is disabled, while Next's `disabled`
attribute is `false` there. -/
theorem c1_disabled_predicates (p tp : Nat) :
    (prevDisabled p = true ↔ p = 1) ∧
    (nextDisabled p tp = true ↔ p = tp) ∧
    (tp = 0 →
      numberedControls tp = [] ∧ prevDisabled 1 = true ∧
      nextDisabled 1 tp = false) := by
  refine ⟨?_, ?_, ?_⟩
  · simp [prevDisabled]
  · simp [nextDisabled]
  · rintro rfl
    exact ⟨rfl, rfl, rfl⟩

/-- Witness for C1 (amended) at `p = 1`, `tp = 0`. -/
theorem c1_disabled_predicates_witness :
    numberedControls 0 = [] ∧ prevDisabled 1 = true ∧
    nextDisabled 1 0 = false :=
  (c1_disabled_predicates 1 0).2.2 rfl

/-- C4: `totalPages n` is `⌈n / 10⌉` for every count `n`, and for `n = 0` it
is `0`, with the rendered list of numbered controls empty. -/
theorem c4_totalPages_is_ceil :
    (∀ n : Nat, totalPages n = ⌈(n : ℚ) / 10⌉₊) ∧
    totalPages 0 = 0 ∧ numberedControls (totalPages 0) = [] := by
  refine ⟨fun n => ?_, rfl, rfl⟩
  rcases Nat.eq_zero_or_pos n with hn | hn
  · subst hn
    simp [totalPages, itemsPerPage]
  · have hm : totalPages n ≠ 0 := by
      simp only [totalPages, itemsPerPage]
      omega
    rw [eq_comm, Nat.ceil_eq_iff hm]
    constructor
    · rw [lt_div_iff₀ (by norm_num : (0 : ℚ) < 10)]
      have h1 : (totalPages n - 1) * 10 < n := by
        simp only [totalPages, itemsPerPage]
        omega
      exact_mod_cast h1
    · rw [div_le_iff₀ (by norm_num : (0 : ℚ) < 10)]
      have h2 : n ≤ totalPages n * 10 := by
        simp only [totalPages, itemsPerPage]
        omega
      exact_mod_cast h2

/-- C3: for a loaded list and a valid page index, the visible slice has
length at most 10, position `i` of the slice is position `(p-1)*10 + i` of
the loaded list for every `i < 10` (`none` past the end on both sides), and
on the last page the slice's length is exactly `n - (totalPages - 1) * 10`. -/
theorem c3_currentPageItems_slice (data : List Item) (p : Nat)
    (h1 : 1 ≤ p) (h2 : p ≤ totalPages data.length) :
    (currentPageItems data p).length ≤ 10 ∧
    (∀ i, i < 10 → (currentPageItems data p)[i]? = data[(p - 1) * 10 + i]?) ∧
    (p = totalPages data.length →
      (currentPageItems data p).length =
        data.length - (totalPages data.length - 1) * 10) := by
  simp only [totalPages, itemsPerPage] at h2 ⊢
  have hlen : (currentPageItems data p).length =
      min (p * 10) data.length - (p - 1) * 10 := by
    simp [currentPageItems, jsSlice, itemsPerPage]
  refine ⟨?_, ?_, ?_⟩
  · rw [hlen]; omega
  · intro i hi
    simp only [currentPageItems, jsSlice, itemsPerPage]
    rw [List.getElem?_drop, List.getElem?_take]
    split
    · rfl
    · rename_i hout
      rw [eq_comm, List.getElem?_eq_none]
      omega
  · intro hp
    subst hp
    rw [hlen]
    omega

/-- Witness for C3 on a 12-item list at page 2 (the last page). -/
theorem c3_currentPageItems_slice_witness :
    (currentPageItems ((List.range 12).map fun i => Item.mk i "b") 2).length ≤ 10 ∧
    (∀ i, i < 10 →
      (currentPageItems ((List.range 12).map fun i => Item.mk i "b") 2)[i]? =
        ((List.range 12).map fun i => Item.mk i "b")[(2 - 1) * 10 + i]?) ∧
    (2 = totalPages ((List.range 12).map fun i => Item.mk i "b").length →
      (currentPageItems ((List.range 12).map fun i => Item.mk i "b") 2).length =
        ((List.range 12).map fun i => Item.mk i "b").length -
          (totalPages ((List.range 12).map fun i => Item.mk i "b").length - 1) * 10) :=
  c3_currentPageItems_slice _ 2 (by decide) (by decide)

/-- C2 counterexample: the dispatch sequence `OK([item]); ERROR("boom")` is a
sequence of reducer transitions from the initial state that reaches a state
whose `error` is non-null while `data` is non-empty — the `ERROR` transition
keeps `data` unchanged rather than resetting it. -/
theorem c2_error_stale_data_counterexample :
    (runActions initialState [.OK [Item.mk 1 "a"], .ERROR "boom"]).error ≠ none ∧
    (runActions initialState [.OK [Item.mk 1 "a"], .ERROR "boom"]).data ≠ [] := by
  decide

-- The reducer changes `data` only on `OK` actions.
theorem runActions_data_of_no_ok (s : LoadState) (as : List Action)
    (hok : ∀ a ∈ as, a.isOK = false) : (runActions s as).data = s.data := by
  induction as generalizing s with
  | nil => rfl
  | cons a as ih =>
    have ha : a.isOK = false := hok a (List.mem_cons_self a as)
    have has : ∀ b ∈ as, b.isOK = false := fun b hb => hok b (List.mem_cons_of_mem a hb)
    show (runActions (reducer s a) as).data = s.data
    rw [ih (reducer s a) has]
    cases a with
    | LOADING => rfl
    | OK data => simp [Action.isOK] at ha
    | ERROR error => rfl
    | unrecognized tag => rfl

/-- C2 (amended): along every dispatch sequence from the initial state that
contains no `OK` action — in particular the component's single-load run that
ends in `ERROR` — a state with non-null `error` has empty `data`. The
unamended claim fails because `ERROR` preserves whatever `OK` loaded before
it. -/
theorem c2_error_implies_empty_data (as : List Action)
    (hok : ∀ a ∈ as, a.isOK = false)
    (_h : (runActions initialState as).error ≠ none) :
    (runActions initialState as).data = [] :=
  runActions_data_of_no_ok initialState as hok

/-- Witness for C2 (amended) on the run `LOADING; ERROR("boom")`. -/
theorem c2_error_implies_empty_data_witness :
    (runActions initialState [.LOADING, .ERROR "boom"]).data = [] :=
  c2_error_implies_empty_data [.LOADING, .ERROR "boom"] (by decide) (by decide)

-- Along any dispatch sequence, a loading state has a cleared error: every
-- transition that sets `isLoading` to true also sets `error` to null.
theorem runActions_isLoading_error (as : List Action) (s : LoadState)
    (hs : s.isLoading = true → s.error = none) :
    (runActions s as).isLoading = true → (runActions s as).error = none := by
  induction as generalizing s with
  | nil => exact hs
  | cons a as ih =>
    show (runActions (reducer s a) as).isLoading = true → _
    apply ih
    cases a with
    | LOADING => intro _; rfl
    | OK data => intro hc; exact absurd hc (by simp [reducer])
    | ERROR error => intro hc; exact absurd hc (by simp [reducer])
    | unrecognized tag => exact hs

/-- C7: in every state reachable from the initial state by reducer
transitions, `isLoading` and `error` are never both truthy, and the three
render guards (loading indicator, error text, data with controls) select
exactly one branch. -/
theorem c7_render_mutually_exclusive (as : List Action) :
    ¬ ((runActions initialState as).isLoading = true ∧
        errTruthy (runActions initialState as).error = true) ∧
    ((if showLoading (runActions initialState as) then 1 else 0) +
      (if showError (runActions initialState as) then 1 else 0) +
      (if showData (runActions initialState as) then 1 else 0) = (1 : Nat)) := by
  have hinv := runActions_isLoading_error as initialState (by decide)
  cases hl : (runActions initialState as).isLoading with
  | false =>
    cases he : errTruthy (runActions initialState as).error with
    | false => simp [showLoading, showError, showData, hl, he]
    | true => simp [showLoading, showError, showData, hl, he]
  | true =>
    have herr : (runActions initialState as).error = none := hinv hl
    simp [showLoading, showError, showData, hl, herr, errTruthy]

-- Field-level descriptions of the navigation handlers.
theorem handlePrevious_data (s : NavState) : (handlePrevious s).data = s.data := by
  unfold handlePrevious; split <;> rfl

theorem handlePrevious_pagination (s : NavState) :
    (handlePrevious s).pagination =
      if s.pagination > 1 then s.pagination - 1 else s.pagination := by
  unfold handlePrevious; split <;> rfl

theorem handleNext_data (s : NavState) : (handleNext s).data = s.data := by
  unfold handleNext; split <;> rfl

theorem handleNext_pagination (s : NavState) :
    (handleNext s).pagination =
      if s.pagination < totalPages s.data.length then s.pagination + 1
      else s.pagination := by
  unfold handleNext; split <;> rfl

theorem handlePageClick_data (num : Nat) (s : NavState) :
    (handlePageClick num s).data = s.data := rfl

theorem handlePageClick_pagination (num : Nat) (s : NavState) :
    (handlePageClick num s).pagination = num := rfl

-- The numbered controls are exactly the labels `1 .. totalPages`.
theorem mem_numberedControls {n tp : Nat} :
    n ∈ numberedControls tp ↔ 1 ≤ n ∧ n ≤ tp := by
  simp only [numberedControls, List.mem_map, List.mem_range]
  constructor
  · rintro ⟨a, ha, rfl⟩
    omega
  · rintro ⟨h1, h2⟩
    exact ⟨n - 1, by omega, by omega⟩

-- Strengthened invariant for the navigation state machine: before the load
-- the state is exactly the mount state, and the page index always stays in
-- `[1, max 1 totalPages]`.
theorem navReachable_bounds {b : Bool} {s : NavState} (h : NavReachable b s) :
    (b = false → s = { data := [], pagination := 1 }) ∧
    1 ≤ s.pagination ∧ s.pagination ≤ max 1 (totalPages s.data.length) := by
  induction h with
  | init => exact ⟨fun _ => rfl, le_refl 1, by simp [totalPages, itemsPerPage]⟩
  | prev h ih =>
    obtain ⟨hinit, hlo, hhi⟩ := ih
    refine ⟨fun hb => by rw [hinit hb]; decide, ?_, ?_⟩
    · rw [handlePrevious_pagination]
      split <;> omega
    · rw [handlePrevious_pagination, handlePrevious_data]
      split <;> omega
  | next h ih =>
    obtain ⟨hinit, hlo, hhi⟩ := ih
    refine ⟨fun hb => by rw [hinit hb]; decide, ?_, ?_⟩
    · rw [handleNext_pagination]
      split <;> omega
    · rw [handleNext_pagination, handleNext_data]
      split <;> omega
  | click h hm ih =>
    obtain ⟨hinit, hlo, hhi⟩ := ih
    rw [mem_numberedControls] at hm
    refine ⟨fun hb => ?_, ?_, ?_⟩
    · exfalso
      rw [hinit hb] at hm
      have hz : totalPages ({ data := [], pagination := 1 } : NavState).data.length = 0 := rfl
      rw [hz] at hm
      omega
    · rw [handlePageClick_pagination]
      exact hm.1
    · rw [handlePageClick_pagination, handlePageClick_data]
      omega
  | load items h ih =>
    obtain ⟨hinit, hlo, hhi⟩ := ih
    rw [hinit rfl]
    exact ⟨fun hb => Bool.noConfusion hb, le_refl 1, le_max_left 1 _⟩

/-- C6: every navigation state reachable from the mount state
(`pagination = 1`, no data) through the guarded Previous/Next handlers,
clicks on rendered numbered controls, and the single `OK` data-load
transition keeps the page index within `[1, max 1 totalPages]`. -/
theorem c6_pageIndex_bounds {b : Bool} {s : NavState} (h : NavReachable b s) :
    1 ≤ s.pagination ∧ s.pagination ≤ max 1 (totalPages s.data.length) :=
  (navReachable_bounds h).2

/-- Witness for C6 at the state reached by the `OK` load of one item. -/
theorem c6_pageIndex_bounds_witness :
    1 ≤ (loadOK [Item.mk 1 "a"] { data := [], pagination := 1 }).pagination ∧
    (loadOK [Item.mk 1 "a"] { data := [], pagination := 1 }).pagination ≤
      max 1 (totalPages
        (loadOK [Item.mk 1 "a"] { data := [], pagination := 1 }).data.length) :=
  c6_pageIndex_bounds (NavReachable.load [Item.mk 1 "a"] NavReachable.init)

/-- C9: the handlers are guarded on their own, independently of the buttons'
`disabled` attributes: `handlePrevious` is the identity whenever `p ≤ 1` and
`handleNext` is the identity whenever `p ≥ totalPages` — including the empty
set (`totalPages = 0`, `p = 1`), where the Next button's `disabled` attribute
is nonetheless `false`. -/
theorem c9_handlers_guarded (data : List Item) (p : Nat) :
    (p ≤ 1 → handlePrevious { data := data, pagination := p } =
      { data := data, pagination := p }) ∧
    (totalPages data.length ≤ p → handleNext { data := data, pagination := p } =
      { data := data, pagination := p }) ∧
    nextDisabled 1 (totalPages ([] : List Item).length) = false := by
  refine ⟨fun hp => ?_, fun hp => ?_, rfl⟩
  · unfold handlePrevious
    split
    · rename_i hgt
      have hgt' : p > 1 := hgt
      exact absurd hgt' (by omega)
    · rfl
  · unfold handleNext
    split
    · rename_i hlt
      have hlt' : p < totalPages data.length := hlt
      exact absurd hlt' (by omega)
    · rfl

/-- Witness for C9 at the empty item set with `p = 1`. -/
theorem c9_handlers_guarded_witness :
    handleNext { data := ([] : List Item), pagination := 1 } =
      { data := ([] : List Item), pagination := 1 } :=
  (c9_handlers_guarded [] 1).2.1 (by decide)

end PaginationUI
